import Mathlib

/-!
Verification development for the brandenburg-angeln-gewaesser repository.

The development shallowly embeds the two Python source files:

* `src/app.py` — catalog validation (`load_fishing_spots`), the prefix /
  distance query surface (`create_map`, `update_map`);
* `src/spot_info_extractor.py` — the harvester (`query_fishing_spot`,
  the dedup-and-query loop of `main`) and its persistence step.

JSON values decoded by Python's `json` module are modelled by `JValue`
(numbers as exact rationals: none of the checked properties depends on
binary floating-point rounding, and all numeric literals involved are
exactly representable).  Python dicts are association lists.  Python
exceptions that can escape the embedded code are modelled with
`Except PyError`.
-/

/-- A JSON value as produced by Python's json.load / response.json():
None, bool, number (int or float, modelled exactly as a rational),
string, list or object. -/
inductive JValue where
  | null
  | bool (b : Bool)
  | num (q : ℚ)
  | str (s : String)
  | arr (items : List JValue)
  | obj (fields : List (String × JValue))

/-- A Python dict with string keys, as an association list. -/
abbrev PyDict := List (String × JValue)

/-- Dict lookup: first binding of the key (JSON objects have unique keys). -/
def jget : PyDict → String → Option JValue
  | [], _ => none
  | (k, v) :: rest, key => if k = key then some v else jget rest key

/-- Python dict.get with default None: missing keys give the null value. -/
def pyGet (d : PyDict) (k : String) : JValue :=
  (jget d k).getD .null

/-- Python truthiness of a decoded JSON value. -/
def truthy : JValue → Bool
  | .null => false
  | .bool b => b
  | .num q => decide (q ≠ 0)
  | .str s => decide (s ≠ "")
  | .arr l => !l.isEmpty
  | .obj l => !l.isEmpty

/-- Python x != 0: numbers (and bools, which compare as ints) are compared
numerically; every other value is unequal to 0. -/
def pyNeqZero : JValue → Bool
  | .num q => decide (q ≠ 0)
  | .bool b => b
  | _ => true

/-- Whether the value is a dict (only dicts have the .get attribute). -/
def JValue.isObj : JValue → Bool
  | .obj _ => true
  | _ => false

/-- Python exceptions that can escape the embedded fragments. -/
inductive PyError where
  | attributeError
  | typeError
  | valueError
  | keyError
  deriving DecidableEq, Repr

/-! ### A model of Python float() on decimal literals

float() strips surrounding whitespace and parses an optionally signed
decimal literal with an optional fraction and an optional exponent.
The special spellings (inf, nan, underscores in digits) play no role in
any checked property and are not modelled; on every input reached by the
claims the model agrees with float(). -/

/-- Split a character list into its leading run of decimal digits and the
rest. -/
def spanDigits (cs : List Char) : List Char × List Char :=
  (cs.takeWhile Char.isDigit, cs.dropWhile Char.isDigit)

/-- Numeric value of a digit run. -/
def digitsToNat (ds : List Char) : Nat :=
  ds.foldl (fun a c => 10 * a + (c.toNat - 48)) 0

/-- Consume one optional sign, returning whether it was a minus. -/
def stripSign : List Char → Bool × List Char
  | '-' :: rest => (true, rest)
  | '+' :: rest => (false, rest)
  | cs => (false, cs)

/-- Parse digits [. digits] (at least one digit overall); returns the value
and the unconsumed rest. -/
def mantissaVal (cs : List Char) : Option (ℚ × List Char) :=
  let (ip, r1) := spanDigits cs
  match r1 with
  | '.' :: r2 =>
    let (fp, r3) := spanDigits r2
    if ip.isEmpty && fp.isEmpty then none
    else some ((digitsToNat ip : ℚ) + (digitsToNat fp : ℚ) / (10 : ℚ) ^ fp.length, r3)
  | _ => if ip.isEmpty then none else some ((digitsToNat ip : ℚ), r1)

/-- Parse the optional exponent part; the whole rest must be consumed. -/
def expVal : List Char → Option ℚ
  | [] => some 1
  | c :: rest =>
    if c = 'e' ∨ c = 'E' then
      let (eneg, r1) := stripSign rest
      let (ds, r2) := spanDigits r1
      if ds.isEmpty ∨ !r2.isEmpty then none
      else some ((10 : ℚ) ^ (if eneg then -(digitsToNat ds : ℤ) else (digitsToNat ds : ℤ)))
    else none

/-- Strip whitespace from both ends of a character list (str.strip() and
the whitespace handling of float() itself). -/
def stripWs (cs : List Char) : List Char :=
  ((cs.dropWhile Char.isWhitespace).reverse.dropWhile Char.isWhitespace).reverse

/-- str.strip() on a string. -/
def pyStrip (s : String) : String :=
  ⟨stripWs s.toList⟩

/-- Python float(s) on a decimal literal: strip whitespace, optional sign,
mantissa, optional exponent; none models a ValueError. -/
def pyFloat (s : String) : Option ℚ :=
  let cs := stripWs s.toList
  let (neg, cs1) := stripSign cs
  match mantissaVal cs1 with
  | none => none
  | some (m, rest) =>
    match expVal rest with
    | none => none
    | some e => some ((if neg then -m else m) * e)

/-- float(str(x).strip()) from app.py lines 22-23: numbers round-trip
through str exactly; strings are stripped and parsed; str() of any other
value (None, bools, lists, dicts) is not a float literal, so float()
raises ValueError, modelled as none. -/
def coerceFloat : JValue → Option ℚ
  | .num q => some q
  | .str s => pyFloat (pyStrip s)
  | _ => none

/-! ### Catalog Validator — load_fishing_spots, app.py lines 7-37

The file read and json.load of data.json are the store boundary; the
embedding takes the decoded JSON array as its argument.  The per-record
body of the loop is `processFields` (for dict records; the whole body is
exception-free for them: the only raising statements are the float
conversions, and their ValueError/TypeError is caught with continue).
A non-dict record raises AttributeError at spot.get, outside the try. -/

/-- The loop body of load_fishing_spots for one dict record: the truthiness
and != 0 guards (app.py lines 16-18), the float coercions (lines 22-23,
try/except makes failure a skip), the bounding-box check (line 26) and the
projection appended on success (lines 27-33).  none means the record is
skipped. -/
def processFields (fields : PyDict) : Option PyDict :=
  let lat0 := pyGet fields "lat"
  let lng0 := pyGet fields "lng"
  let id0 := pyGet fields "id"
  let bez0 := pyGet fields "bezeichnung"
  if truthy lat0 && truthy lng0 && truthy id0 && truthy bez0
      && pyNeqZero lat0 && pyNeqZero lng0 then
    match coerceFloat lat0, coerceFloat lng0 with
    | some lat, some lng =>
      if 47 ≤ lat ∧ lat ≤ 55 ∧ 5 ≤ lng ∧ lng ≤ 16 then
        some [("id", id0), ("bezeichnung", bez0),
              ("verein", (jget fields "verein").getD (.str "N/A")),
              ("lat", .num lat), ("lng", .num lng)]
      else none
    | _, _ => none
  else none

/-- One iteration of the loop on an arbitrary decoded record: spot.get on a
non-dict raises AttributeError (uncaught); a dict record never raises. -/
def processRecord : JValue → Except PyError (Option PyDict)
  | .obj fields => .ok (processFields fields)
  | _ => .error .attributeError

/-- load_fishing_spots on the decoded contents of data.json: records are
processed in order; survivors are collected in order; the first uncaught
exception aborts the function. -/
def load_fishing_spots : List JValue → Except PyError (List PyDict)
  | [] => .ok []
  | r :: rest =>
    match processRecord r with
    | .error e => .error e
    | .ok none => load_fishing_spots rest
    | .ok (some d) =>
      match load_fishing_spots rest with
      | .error e => .error e
      | .ok tail => .ok (d :: tail)

/-! ### Spatial/Group Query Engine — create_map and update_map, app.py -/

/-- Python s.startswith(p) for strings. -/
def pyStartswith (s p : String) : Bool :=
  p.toList.isPrefixOf s.toList

/-- Python any(spot_id.startswith(p) for p in prefixes): evaluated lazily
left to right; startswith on a non-string value raises AttributeError as
soon as it is first called. -/
def startswithAny (v : JValue) (prefixes : List String) : Except PyError Bool :=
  match v with
  | .str s => .ok (prefixes.any (fun p => pyStartswith s p))
  | _ => if prefixes.isEmpty then .ok false else .error .attributeError

/-- Effectful filter: the loop of create_map lines 61-65, evaluating the
per-spot test in order and propagating the first exception. -/
def filterE (p : PyDict → Except PyError Bool) : List PyDict → Except PyError (List PyDict)
  | [] => .ok []
  | d :: rest =>
    match p d with
    | .error e => .error e
    | .ok b =>
      match filterE p rest with
      | .error e => .error e
      | .ok tail => .ok (if b then d :: tail else tail)

/-- The spot-selection stage of create_map (app.py lines 55-69), the part
of the map observable as its marker set.  The catalog argument stands for
the load_fishing_spots result the source obtains internally; a falsy
selected_cities (None or the empty list) selects no spots, a non-empty
list keeps the spots whose id starts with one of the prefixes
(spot['id'] is a plain index, so a missing key would be a KeyError). -/
def create_map (catalog : List PyDict) (selected_cities : Option (List String)) :
    Except PyError (List PyDict) :=
  if (selected_cities.getD []).isEmpty then .ok []
  else
    filterE
      (fun d =>
        match jget d "id" with
        | none => .error .keyError
        | some v => startswithAny v (selected_cities.getD []))
      catalog

/-- Which user-visible status message update_map returns. -/
inductive UpdateStatus where
  | showing_all
  | invalid_numeric
  | warning_out_of_region
  | success_within (maxDistance : ℚ)

/-- update_map (app.py lines 148-166).  Inputs are the raw textbox strings.
float() failures hit the `except ValueError` arm (invalid_numeric); an
out-of-region parsed point returns the no-selection map and the warning
message.  An in-region point reaches `create_map(user_lat, user_lng,
max_distance)` (line 160) — but create_map accepts only the single
optional parameter selected_cities, so the 3-positional-argument call
raises TypeError, which `except ValueError` does not catch: the
success_within branch is unreachable.  The list component of each ok
result is the marker set of the returned map; every reachable return
passes create_map no arguments, whose selection is empty. -/
def update_map (catalog : List PyDict) (lat_in lng_in dist_in : String) :
    Except PyError (List PyDict × UpdateStatus) :=
  if lat_in = "" ∨ lng_in = "" then
    .ok ([], .showing_all)
  else
    match pyFloat lat_in, pyFloat lng_in with
    | none, _ => .ok ([], .invalid_numeric)
    | some _, none => .ok ([], .invalid_numeric)
    | some user_lat, some user_lng =>
      match (if dist_in ≠ "" then pyFloat dist_in else some 50) with
      | none => .ok ([], .invalid_numeric)
      | some _max_distance =>
        if 47 ≤ user_lat ∧ user_lat ≤ 55 ∧ 5 ≤ user_lng ∧ user_lng ≤ 16 then
          .error .typeError
        else
          .ok ([], .warning_out_of_region)

/-! ### Harvester — spot_info_extractor.py -/

/-- Outcome of the lookup client for one identifier: a decoded JSON body,
a requests-layer failure (RequestException: unreachable, timeout,
raise_for_status on a non-2xx response), or a JSON decode failure. -/
inductive FetchOutcome where
  | success (v : JValue)
  | requestError (msg : String)
  | decodeError (msg : String)

/-- The error placeholder recorded for a failed identifier
(spot_info_extractor.py line 32). -/
def placeholder (msg gid : String) : JValue :=
  .obj [("error", .str msg), ("gewaesser_id", .str gid)]

/-- query_fishing_spot (spot_info_extractor.py lines 6-36): returns the
decoded response, or an error placeholder carrying the message and the
identifier; both failure classes are caught, so the function never
raises. -/
def query_fishing_spot (client : String → FetchOutcome) (gid : String) : JValue :=
  match client gid with
  | .success v => v
  | .requestError m => placeholder m gid
  | .decodeError m =>
    .obj [("error", .str ("JSON decode error: " ++ m)), ("gewaesser_id", .str gid)]

/-- The dedup-and-query loop of main (spot_info_extractor.py lines 66-77):
ids_to_query = list(set(ids_to_query)), then one query per surviving
identifier, outcomes appended in loop order.  Python's set iteration
order is unspecified; List.dedup is the order-canonical model, and every
property proved about the result is order-independent. -/
def harvest_results (client : String → FetchOutcome) (ids : List String) : List JValue :=
  (ids.dedup).map (query_fishing_spot client)

/-! ### Persistence step of main — spot_info_extractor.py lines 82-90

`open(output_filename, 'w')` truncates data.json in place the moment the
open succeeds, then json.dump writes the serialized results incrementally.
The store is modelled as the list of chunks its contents concatenate; the
injected WriteEvent says how far the run got: open itself failed (store
untouched), the stream failed after n chunks (truncated store holds the
first n chunks of the new serialization), or everything was written. -/

/-- How far the persistence step of one harvest run progressed. -/
inductive WriteEvent where
  | openFail
  | failAfter (n : Nat)
  | complete

/-- Observable store contents after the persistence step, for prior
contents `prior` and new serialization `chunks`. -/
def persistRun (prior : List String) (chunks : List String) : WriteEvent → List String
  | .openFail => prior
  | .failAfter n => chunks.take n
  | .complete => chunks

/-- The boolean the prefix filter of create_map implements per spot:
the id value is a string starting with one of the prefixes. -/
def idMatches (prefixes : List String) (d : PyDict) : Bool :=
  match jget d "id" with
  | some (.str s) => prefixes.any (fun p => pyStartswith s p)
  | _ => false

/-- The Spot invariants on an emitted catalog entry: truthy (hence
non-empty) id and name, coordinates inside the bounding box with
inclusive borders and both non-zero, and a club value present. -/
def SpotDictInv (d : PyDict) : Prop :=
  (∃ v, jget d "id" = some v ∧ truthy v = true ∧ v ≠ JValue.str "") ∧
  (∃ v, jget d "bezeichnung" = some v ∧ truthy v = true ∧ v ≠ JValue.str "") ∧
  (∃ q, jget d "lat" = some (JValue.num q) ∧ 47 ≤ q ∧ q ≤ 55 ∧ q ≠ 0) ∧
  (∃ q, jget d "lng" = some (JValue.num q) ∧ 5 ≤ q ∧ q ≤ 16 ∧ q ≠ 0) ∧
  (∃ v, jget d "verein" = some v)

/-! ### Concrete inputs used in witnesses and boundary examples -/

/-- A dict record lacking coordinates: validation skips it. -/
def rawMalformed : List JValue := [JValue.obj [("id", JValue.str "X")]]

/-- A two-spot catalog, one Potsdam id and one Cottbus id. -/
def catalogPC : List PyDict :=
  [[("id", JValue.str "P 01")], [("id", JValue.str "C 02")]]

/-- A lookup client that fails with a network error on identifier "B" and
succeeds elsewhere. -/
def clientAB : String → FetchOutcome := fun gid =>
  if gid = "B" then .requestError "boom" else .success (.obj [("id", .str gid)])

/-- A raw record with an extraneous key and whitespace around the
latitude literal. -/
def fieldsX : PyDict :=
  [("id", JValue.str "P 01"), ("bezeichnung", JValue.str "See"),
   ("lat", JValue.str " 52.5 "), ("lng", JValue.str "13.1"),
   ("extra", JValue.str "ignored")]

/-- The Spot that validating fieldsX emits. -/
def spotX : PyDict :=
  [("id", JValue.str "P 01"), ("bezeichnung", JValue.str "See"),
   ("verein", JValue.str "N/A"),
   ("lat", JValue.num (105/2)), ("lng", JValue.num (131/10))]

/-- A one-record raw store whose record is well-formed. -/
def rawGood : List JValue :=
  [JValue.obj [("id", JValue.str "P 01"), ("bezeichnung", JValue.str "See"),
    ("lat", JValue.str "52.5"), ("lng", JValue.str "13.1")]]

/-- The Spot that loading rawGood emits. -/
def spotGood : PyDict :=
  [("id", JValue.str "P 01"), ("bezeichnung", JValue.str "See"),
   ("verein", JValue.str "N/A"),
   ("lat", JValue.num (105/2)), ("lng", JValue.num (131/10))]

/-- A raw record sitting exactly on the low corner (47, 5) of the
bounding box. -/
def boundaryLow : PyDict :=
  [("id", JValue.str "B 01"), ("bezeichnung", JValue.str "Rand"),
   ("lat", JValue.str "47"), ("lng", JValue.str "5")]

/-- The Spot emitted for boundaryLow: the corner is retained. -/
def spotBoundaryLow : PyDict :=
  [("id", JValue.str "B 01"), ("bezeichnung", JValue.str "Rand"),
   ("verein", JValue.str "N/A"),
   ("lat", JValue.num 47), ("lng", JValue.num 5)]

/-- A raw record sitting exactly on the high corner (55, 16) of the
bounding box. -/
def boundaryHigh : PyDict :=
  [("id", JValue.str "B 02"), ("bezeichnung", JValue.str "Rand"),
   ("lat", JValue.str "55"), ("lng", JValue.str "16")]

/-- The Spot emitted for boundaryHigh: the corner is retained. -/
def spotBoundaryHigh : PyDict :=
  [("id", JValue.str "B 02"), ("bezeichnung", JValue.str "Rand"),
   ("verein", JValue.str "N/A"),
   ("lat", JValue.num 55), ("lng", JValue.num 16)]

/-! ### Helper lemmas -/

/-- A key whose value is truthy is present in the dict, and dict.get
returns exactly the stored value. -/
lemma jget_of_truthy (fields : PyDict) (k : String)
    (h : truthy (pyGet fields k) = true) :
    jget fields k = some (pyGet fields k) := by
  unfold pyGet at *
  cases hk : jget fields k with
  | some v => simp [hk]
  | none => rw [hk] at h; simp [Option.getD, truthy] at h

/-- A truthy value is not the empty string. -/
lemma truthy_ne_empty_str {v : JValue} (h : truthy v = true) : v ≠ JValue.str "" := by
  intro hv
  subst hv
  simp [truthy] at h

/-- Anatomy of a successful record validation: the guard held, both
coordinates parsed, the bounding box held, and the output dict is the
five-field projection. -/
lemma processFields_eq_some (fields d : PyDict) (h : processFields fields = some d) :
    ∃ lat lng, coerceFloat (pyGet fields "lat") = some lat ∧
      coerceFloat (pyGet fields "lng") = some lng ∧
      (47 ≤ lat ∧ lat ≤ 55 ∧ 5 ≤ lng ∧ lng ≤ 16) ∧
      (truthy (pyGet fields "lat") && truthy (pyGet fields "lng") &&
        truthy (pyGet fields "id") && truthy (pyGet fields "bezeichnung") &&
        pyNeqZero (pyGet fields "lat") && pyNeqZero (pyGet fields "lng")) = true ∧
      d = [("id", pyGet fields "id"), ("bezeichnung", pyGet fields "bezeichnung"),
           ("verein", (jget fields "verein").getD (.str "N/A")),
           ("lat", .num lat), ("lng", .num lng)] := by
  simp only [processFields] at h
  split at h
  case isTrue hguard =>
    split at h
    case h_1 lat lng hlat hlng =>
      split at h
      case isTrue hregion =>
        exact ⟨lat, lng, hlat, hlng, hregion, hguard, (Option.some.injEq _ _ ▸ h).symm⟩
      case isFalse => simp at h
    case h_2 => simp at h
  case isFalse => simp at h

/-- Every record a successful validation emits satisfies the Spot
invariants. -/
lemma processFields_inv (fields d : PyDict) (h : processFields fields = some d) :
    SpotDictInv d := by
  obtain ⟨lat, lng, hlat, hlng, hregion, hguard, hd⟩ := processFields_eq_some fields d h
  simp only [Bool.and_eq_true] at hguard
  obtain ⟨⟨⟨⟨⟨hlat0, hlng0⟩, hid0⟩, hbez0⟩, _⟩, _⟩ := hguard
  subst hd
  refine ⟨⟨pyGet fields "id", by simp [jget], hid0, truthy_ne_empty_str hid0⟩,
    ⟨pyGet fields "bezeichnung", by simp [jget], hbez0, truthy_ne_empty_str hbez0⟩,
    ⟨lat, by simp [jget], hregion.1, hregion.2.1, by intro h0; rw [h0] at hregion; linarith [hregion.1]⟩,
    ⟨lng, by simp [jget], hregion.2.2.1, hregion.2.2.2, by intro h0; rw [h0] at hregion; linarith [hregion.2.2.1]⟩,
    ⟨(jget fields "verein").getD (.str "N/A"), by simp [jget]⟩⟩

/-- An arbitrary record that validates is a dict record that validates. -/
lemma processRecord_inv (r : JValue) (d : PyDict)
    (h : processRecord r = .ok (some d)) : SpotDictInv d := by
  cases r <;> simp [processRecord] at h
  exact processFields_inv _ _ h

/-- Every member of a successful load satisfies the Spot invariants. -/
lemma load_mem_inv (raw : List JValue) (out : List PyDict)
    (h : load_fishing_spots raw = .ok out) : ∀ d ∈ out, SpotDictInv d := by
  induction raw generalizing out with
  | nil =>
    simp only [load_fishing_spots, Except.ok.injEq] at h
    subst h
    simp
  | cons r rest ih =>
    simp only [load_fishing_spots] at h
    cases hr : processRecord r with
    | error e => rw [hr] at h; simp at h
    | ok o =>
      rw [hr] at h
      cases o with
      | none => exact ih out h
      | some d0 =>
        cases hrest : load_fishing_spots rest with
        | error e => rw [hrest] at h; simp at h
        | ok tail =>
          rw [hrest] at h
          simp only [Except.ok.injEq] at h
          subst h
          intro d hd
          rcases List.mem_cons.mp hd with rfl | hd2
          · exact processRecord_inv r d hr
          · exact ih tail hrest d hd2

/-- Loading a concatenation of record lists concatenates the surviving
entries in order. -/
lemma load_append (raw1 raw2 : List JValue) (out1 out2 : List PyDict)
    (h1 : load_fishing_spots raw1 = .ok out1)
    (h2 : load_fishing_spots raw2 = .ok out2) :
    load_fishing_spots (raw1 ++ raw2) = .ok (out1 ++ out2) := by
  induction raw1 generalizing out1 with
  | nil =>
    simp only [load_fishing_spots, Except.ok.injEq] at h1
    subst h1
    simpa using h2
  | cons r rest ih =>
    simp only [load_fishing_spots, List.cons_append] at h1 ⊢
    cases hr : processRecord r with
    | error e => rw [hr] at h1; simp at h1
    | ok o =>
      rw [hr] at h1
      cases o with
      | none => exact ih out1 h1
      | some d0 =>
        cases hrest : load_fishing_spots rest with
        | error e => rw [hrest] at h1; simp at h1
        | ok tail =>
          rw [hrest] at h1
          simp only [Except.ok.injEq] at h1
          subst h1
          simp [List.append_eq, ih tail hrest]

/-! ### Concrete float() evaluations

Rat arithmetic is irreducible to the elaborator, so each concrete parse
is first reduced structurally to its arithmetic form and then settled by
norm_num. -/

lemma pyFloat_52_0 : pyFloat "52.0" = some 52 := by
  have h : pyFloat "52.0" = some (((52 : ℚ) + (0 : ℚ) / (10 : ℚ) ^ (1 : ℕ)) * 1) := rfl
  rw [h]; norm_num

lemma pyFloat_13_0 : pyFloat "13.0" = some 13 := by
  have h : pyFloat "13.0" = some (((13 : ℚ) + (0 : ℚ) / (10 : ℚ) ^ (1 : ℕ)) * 1) := rfl
  rw [h]; norm_num

lemma pyFloat_10 : pyFloat "10" = some 10 := by
  have h : pyFloat "10" = some ((10 : ℚ) * 1) := rfl
  rw [h]; norm_num

lemma pyFloat_60 : pyFloat "60" = some 60 := by
  have h : pyFloat "60" = some ((60 : ℚ) * 1) := rfl
  rw [h]; norm_num

lemma pyFloat_13 : pyFloat "13" = some 13 := by
  have h : pyFloat "13" = some ((13 : ℚ) * 1) := rfl
  rw [h]; norm_num

lemma coerce_52_5ws : coerceFloat (JValue.str " 52.5 ") = some (105/2) := by
  have h : coerceFloat (JValue.str " 52.5 ") =
      some (((52 : ℚ) + (5 : ℚ) / (10 : ℚ) ^ (1 : ℕ)) * 1) := rfl
  rw [h]; norm_num

lemma coerce_52_5 : coerceFloat (JValue.str "52.5") = some (105/2) := by
  have h : coerceFloat (JValue.str "52.5") =
      some (((52 : ℚ) + (5 : ℚ) / (10 : ℚ) ^ (1 : ℕ)) * 1) := rfl
  rw [h]; norm_num

lemma coerce_13_1 : coerceFloat (JValue.str "13.1") = some (131/10) := by
  have h : coerceFloat (JValue.str "13.1") =
      some (((13 : ℚ) + (1 : ℚ) / (10 : ℚ) ^ (1 : ℕ)) * 1) := rfl
  rw [h]; norm_num

lemma coerce_47 : coerceFloat (JValue.str "47") = some 47 := by
  have h : coerceFloat (JValue.str "47") = some ((47 : ℚ) * 1) := rfl
  rw [h]; norm_num

lemma coerce_5 : coerceFloat (JValue.str "5") = some 5 := by
  have h : coerceFloat (JValue.str "5") = some ((5 : ℚ) * 1) := rfl
  rw [h]; norm_num

lemma coerce_55 : coerceFloat (JValue.str "55") = some 55 := by
  have h : coerceFloat (JValue.str "55") = some ((55 : ℚ) * 1) := rfl
  rw [h]; norm_num

lemma coerce_16 : coerceFloat (JValue.str "16") = some 16 := by
  have h : coerceFloat (JValue.str "16") = some ((16 : ℚ) * 1) := rfl
  rw [h]; norm_num

/-! ### Claim theorems -/

/-- C1.  The distance query path is broken code: for every catalog, a
reference point inside the supported region with an explicit distance —
here (52.0, 13.0) with maxDistanceKm 10 — makes update_map call
create_map with three positional arguments, which raises an uncaught
TypeError instead of computing haversine distances and filtering; no
entry is ever annotated with a distance or dropped by one. -/
theorem update_map_inregion_raises_typeError (catalog : List PyDict) :
    update_map catalog "52.0" "13.0" "10" = .error .typeError := by
  simp [update_map, pyFloat_52_0, pyFloat_13_0, pyFloat_10]
  norm_num

/-- C2 counterexample.  The persistence step of a harvest run is not
all-or-nothing: a stream failure after the first chunk leaves the store
holding neither its prior contents nor the full new serialization. -/
theorem persist_partial_write_observable :
    persistRun ["[\"old\"]"] ["[", "\"P 04-116\"", "]"] (.failAfter 1) ≠ ["[\"old\"]"] ∧
    persistRun ["[\"old\"]"] ["[", "\"P 04-116\"", "]"] (.failAfter 1) ≠ ["[", "\"P 04-116\"", "]"] := by
  constructor <;> decide

/-- C2 amended.  The store is truncated and rewritten in place: prior
contents survive exactly when the open itself fails; a failure after a
successful open leaves a proper prefix of the new serialization (the
prior contents are lost); only a complete run yields the full new
serialization. -/
theorem persist_overwrite_behavior (prior chunks : List String) (n : Nat) :
    persistRun prior chunks .openFail = prior ∧
    persistRun prior chunks .complete = chunks ∧
    persistRun prior chunks (.failAfter n) = chunks.take n ∧
    chunks.take n ++ chunks.drop n = chunks :=
  ⟨rfl, rfl, rfl, List.take_append_drop n chunks⟩

/-- C3.  With no group selected — selected_cities None or the empty
list — create_map selects no spots at all, for every catalog. -/
theorem create_map_no_selection_empty (catalog : List PyDict) :
    create_map catalog none = .ok [] ∧ create_map catalog (some []) = .ok [] :=
  ⟨rfl, rfl⟩

/-- C4 counterexample.  load_fishing_spots is not exception-free on
arbitrary decoded records: a non-dict record raises AttributeError at
spot.get. -/
theorem load_fishing_spots_raises_on_nondict :
    load_fishing_spots [JValue.str "not a record"] = .error .attributeError := rfl

/-- C4 amended.  On record sequences whose members are all dicts,
load_fishing_spots never raises; each malformed dict record is skipped
individually and the remaining records are still processed. -/
theorem load_fishing_spots_ok_on_dicts (raw : List JValue)
    (h : ∀ r ∈ raw, r.isObj = true) :
    (∃ out, load_fishing_spots raw = .ok out) ∧
    (∀ fields rest, processFields fields = none →
      load_fishing_spots (JValue.obj fields :: rest) = load_fishing_spots rest) := by
  constructor
  · induction raw with
    | nil => exact ⟨[], rfl⟩
    | cons r rest ih =>
      obtain ⟨out, hout⟩ := ih (fun x hx => h x (List.mem_cons_of_mem _ hx))
      have hr : r.isObj = true := h r (List.mem_cons_self _ _)
      cases r <;> simp [JValue.isObj] at hr
      case obj fields =>
        cases hpf : processFields fields with
        | none => exact ⟨out, by simp [load_fishing_spots, processRecord, hpf, hout]⟩
        | some d => exact ⟨d :: out, by simp [load_fishing_spots, processRecord, hpf, hout]⟩
  · intro fields rest hpf
    simp [load_fishing_spots, processRecord, hpf]

/-- C4 witness: the amended theorem applied to a dict record sequence
containing one malformed record. -/
theorem load_fishing_spots_ok_on_dicts_witness :
    ∃ out, load_fishing_spots rawMalformed = .ok out :=
  (load_fishing_spots_ok_on_dicts rawMalformed
    (by intro r hr; simp only [rawMalformed, List.mem_singleton] at hr; subst hr; rfl)).1

/-- Evaluating an exception-free boolean test pointwise turns the
effectful filter into List.filter. -/
lemma filterE_ok (p : PyDict → Except PyError Bool) (q : PyDict → Bool)
    (catalog : List PyDict) (h : ∀ d ∈ catalog, p d = .ok (q d)) :
    filterE p catalog = .ok (catalog.filter q) := by
  induction catalog with
  | nil => rfl
  | cons d rest ih =>
    have hd := h d (List.mem_cons_self _ _)
    have hrest := ih (fun x hx => h x (List.mem_cons_of_mem _ hx))
    simp only [filterE, hd, hrest, List.filter_cons]

/-- C5.  For every catalog of Spots (string ids, as the validated entity
guarantees) and every non-empty prefix list, create_map keeps exactly
the spots whose id starts with one of the prefixes — membership in the
result is equivalent to membership in the catalog plus a prefix match. -/
theorem create_map_prefix_filter (catalog : List PyDict) (prefixes : List String)
    (hne : prefixes ≠ [])
    (hids : ∀ d ∈ catalog, ∃ s, jget d "id" = some (JValue.str s)) :
    create_map catalog (some prefixes) = .ok (catalog.filter (idMatches prefixes)) ∧
    ∀ d, d ∈ catalog.filter (idMatches prefixes) ↔
      d ∈ catalog ∧ idMatches prefixes d = true := by
  constructor
  · unfold create_map
    rw [if_neg (by simp [hne])]
    apply filterE_ok
    intro d hd
    obtain ⟨s, hs⟩ := hids d hd
    simp [hs, startswithAny, idMatches]
  · intro d
    simp [List.mem_filter]

/-- C5 witness: the prefix query on the concrete two-spot catalog. -/
theorem create_map_prefix_filter_witness :
    create_map catalogPC (some ["P"]) = .ok (catalogPC.filter (idMatches ["P"])) :=
  (create_map_prefix_filter catalogPC ["P"] (by simp)
    (by
      intro d hd
      simp only [catalogPC, List.mem_cons, List.not_mem_nil, or_false] at hd
      rcases hd with rfl | rfl
      · exact ⟨"P 01", rfl⟩
      · exact ⟨"C 02", rfl⟩)).1

/-- C6.  Every entry of a successfully loaded catalog satisfies the Spot
invariants; the club defaults to "N/A" exactly when the raw record has
no verein key; surviving entries keep the input order (loading is a
homomorphism for concatenation); and raw records lying exactly on the
bounding-box corners 47, 5 and 55, 16 are retained. -/
theorem load_fishing_spots_invariants (raw : List JValue) (out : List PyDict)
    (h : load_fishing_spots raw = .ok out) :
    (∀ d ∈ out, SpotDictInv d) ∧
    (∀ fields d, processFields fields = some d → jget fields "verein" = none →
      jget d "verein" = some (JValue.str "N/A")) ∧
    (∀ raw2 out2, load_fishing_spots raw2 = .ok out2 →
      load_fishing_spots (raw ++ raw2) = .ok (out ++ out2)) ∧
    processFields boundaryLow = some spotBoundaryLow ∧
    processFields boundaryHigh = some spotBoundaryHigh := by
  refine ⟨load_mem_inv raw out h,
    ?_,
    fun raw2 out2 h2 => load_append raw raw2 out out2 h h2,
    ?_, ?_⟩
  · intro fields d hpf hver
    obtain ⟨lat, lng, _, _, _, _, hd⟩ := processFields_eq_some fields d hpf
    subst hd
    simp [jget, hver]
  · simp [processFields, boundaryLow, spotBoundaryLow, pyGet, jget, truthy,
      pyNeqZero, coerce_47, coerce_5]
    norm_num
  · simp [processFields, boundaryHigh, spotBoundaryHigh, pyGet, jget, truthy,
      pyNeqZero, coerce_55, coerce_16]
    norm_num

/-- C6 witness: the invariant theorem applied to the concrete one-record
store. -/
theorem load_fishing_spots_invariants_witness : SpotDictInv spotGood :=
  (load_fishing_spots_invariants rawGood [spotGood] (by
    simp [load_fishing_spots, processRecord, processFields, rawGood, spotGood,
      pyGet, jget, truthy, pyNeqZero, coerce_52_5, coerce_13_1]
    norm_num)).1 spotGood (List.mem_singleton.mpr rfl)

/-- C7.  A fetch failure for one identifier — network or decode — is
recorded as an error placeholder carrying the message and that
identifier, and every identifier of the batch still contributes its own
outcome to the harvested sequence. -/
theorem harvest_error_placeholder (client : String → FetchOutcome)
    (ids : List String) (gid m : String) (hmem : gid ∈ ids) :
    (client gid = .requestError m →
      placeholder m gid ∈ harvest_results client ids) ∧
    (client gid = .decodeError m →
      JValue.obj [("error", JValue.str ("JSON decode error: " ++ m)),
        ("gewaesser_id", JValue.str gid)] ∈ harvest_results client ids) ∧
    (∀ g, g ∈ ids → query_fishing_spot client g ∈ harvest_results client ids) := by
  have key : ∀ g, g ∈ ids →
      query_fishing_spot client g ∈ harvest_results client ids := by
    intro g hg
    exact List.mem_map_of_mem _ (List.mem_dedup.mpr hg)
  refine ⟨?_, ?_, key⟩
  · intro hc
    have hmem2 := key gid hmem
    simpa [query_fishing_spot, hc] using hmem2
  · intro hc
    have hmem2 := key gid hmem
    simpa [query_fishing_spot, hc] using hmem2

/-- C7 witness: the failing identifier "B" of the concrete client leaves
its placeholder in the harvested sequence. -/
theorem harvest_error_placeholder_witness :
    placeholder "boom" "B" ∈ harvest_results clientAB ["A", "B"] :=
  (harvest_error_placeholder clientAB ["A", "B"] "B" "boom" (by simp)).1 rfl

/-- C8.  Harvesting deduplicates the identifier list with set semantics —
the queried list has no duplicates and exactly the members of the input —
and queries each surviving identifier exactly once, one outcome each; on
["A", "A", "B"] with a client failing on "B" the result is exactly two
outcomes, one success for "A" and one error placeholder for "B". -/
theorem harvest_dedup_outcomes :
    (∀ (client : String → FetchOutcome) (ids : List String),
      harvest_results client ids = (ids.dedup).map (query_fishing_spot client) ∧
      (ids.dedup).Nodup ∧ (∀ i, i ∈ ids.dedup ↔ i ∈ ids) ∧
      (harvest_results client ids).length = (ids.dedup).length) ∧
    (harvest_results clientAB ["A", "A", "B"]).length = 2 ∧
    JValue.obj [("id", JValue.str "A")] ∈ harvest_results clientAB ["A", "A", "B"] ∧
    placeholder "boom" "B" ∈ harvest_results clientAB ["A", "A", "B"] := by
  have h : harvest_results clientAB ["A", "A", "B"] =
      [JValue.obj [("id", JValue.str "A")], placeholder "boom" "B"] := rfl
  exact ⟨fun client ids =>
      ⟨rfl, ids.nodup_dedup, fun i => List.mem_dedup, by simp [harvest_results]⟩,
    by rw [h]; rfl,
    by rw [h]; exact List.mem_cons_self _ _,
    by rw [h]; exact List.mem_cons_of_mem _ (List.mem_cons_self _ _)⟩

/-- C9.  A parsed reference point outside the supported bounding box makes
update_map reject the request: it returns the unfiltered default map and
the out-of-region warning, and never reaches the distance path. -/
theorem update_map_rejects_out_of_region (catalog : List PyDict)
    (lat_in lng_in dist_in : String) (la ln : ℚ)
    (h1 : lat_in ≠ "") (h2 : lng_in ≠ "")
    (h3 : pyFloat lat_in = some la) (h4 : pyFloat lng_in = some ln)
    (h5 : dist_in = "" ∨ ∃ q, pyFloat dist_in = some q)
    (h6 : ¬(47 ≤ la ∧ la ≤ 55 ∧ 5 ≤ ln ∧ ln ≤ 16)) :
    update_map catalog lat_in lng_in dist_in =
      .ok ([], .warning_out_of_region) := by
  unfold update_map
  rw [if_neg (by simp [h1, h2])]
  rcases h5 with hd | ⟨q, hq⟩
  · simp [h3, h4, hd, h6]
  · by_cases hde : dist_in = ""
    · simp [h3, h4, hde, h6]
    · simp [h3, h4, hde, hq, h6]

/-- C9 witness: the rejection theorem at the concrete out-of-region point
(60, 13). -/
theorem update_map_rejects_out_of_region_witness :
    update_map [] "60" "13" "" = .ok ([], .warning_out_of_region) :=
  update_map_rejects_out_of_region [] "60" "13" "" 60 13 (by decide) (by decide)
    pyFloat_60 pyFloat_13 (Or.inl rfl) (by norm_num)

/-- C10.  A surviving record is projected onto exactly the five keys id,
bezeichnung, verein (defaulted to "N/A" when absent), lat and lng; the
coordinates are the stripped float parses of the raw values; any other
key of the raw record is absent from the emitted Spot. -/
theorem processFields_projection (fields d : PyDict)
    (h : processFields fields = some d) :
    d.map Prod.fst = ["id", "bezeichnung", "verein", "lat", "lng"] ∧
    jget d "id" = jget fields "id" ∧
    jget d "bezeichnung" = jget fields "bezeichnung" ∧
    jget d "verein" = some ((jget fields "verein").getD (JValue.str "N/A")) ∧
    (∃ q, coerceFloat (pyGet fields "lat") = some q ∧
      jget d "lat" = some (JValue.num q)) ∧
    (∃ q, coerceFloat (pyGet fields "lng") = some q ∧
      jget d "lng" = some (JValue.num q)) ∧
    (∀ k, k ∉ (["id", "bezeichnung", "verein", "lat", "lng"] : List String) →
      jget d k = none) := by
  obtain ⟨lat, lng, hlat, hlng, hregion, hguard, hd⟩ := processFields_eq_some fields d h
  simp only [Bool.and_eq_true] at hguard
  obtain ⟨⟨⟨⟨⟨hlat0, hlng0⟩, hid0⟩, hbez0⟩, _⟩, _⟩ := hguard
  subst hd
  refine ⟨rfl, ?_, ?_, by simp [jget], ⟨lat, hlat, by simp [jget]⟩,
    ⟨lng, hlng, by simp [jget]⟩, ?_⟩
  · rw [jget_of_truthy fields "id" hid0]; simp [jget]
  · rw [jget_of_truthy fields "bezeichnung" hbez0]; simp [jget]
  · intro k hk
    simp only [List.mem_cons, List.not_mem_nil, or_false, not_or] at hk
    obtain ⟨hk1, hk2, hk3, hk4, hk5⟩ := hk
    simp [jget, Ne.symm hk1, Ne.symm hk2, Ne.symm hk3, Ne.symm hk4, Ne.symm hk5]

/-- C10 witness: the projection theorem at the concrete record fieldsX
with an extraneous key. -/
theorem processFields_projection_witness :
    spotX.map Prod.fst = ["id", "bezeichnung", "verein", "lat", "lng"] :=
  (processFields_projection fieldsX spotX (by
    simp [processFields, fieldsX, spotX, pyGet, jget, truthy, pyNeqZero,
      coerce_52_5ws, coerce_13_1]
    norm_num)).1
